import Mathlib

/-!
Shallow embedding of the `research_multi_agent` workflow of the
`langgraph-starter-app` repository (modules `src/research_multi_agent/graph.py`,
`agents/planner.py`, `agents/researcher.py`, `agents/writer.py`, `state.py`),
together with theorems settling the frozen claims about it.

Conventions of the embedding:
* Python strings are modelled as `List Char` (`Str`); slicing `[:n]` is
  `List.take`, `in` is `isSubstr`, `.lower()` maps `Char.toLower`.
* Python `float` scores are modelled as rationals `ℚ`.
* External collaborators (the LLM, the tool-running agent, `json.loads`,
  the wall-clock date) are oracles passed in as explicit parameters; a stage
  exception raised by a collaborator is an explicit outcome constructor.
* A LangGraph node returns a partial state update (`NodeDelta`); the
  controller merges it into the state (`applyDelta`): `messages` is appended
  to, scalar fields are replaced when present in the delta.
-/

/-- Python strings are embedded as lists of characters. -/
abbrev Str := List Char

/-- Converts a Lean string literal to the embedded string type. -/
def str (s : String) : Str := s.toList

/-- Boolean prefix test on embedded strings. -/
def isPrefixList : Str → Str → Bool
  | [], _ => true
  | _ :: _, [] => false
  | a :: as, b :: bs => a = b && isPrefixList as bs

/-- Embeds the Python substring test `needle in hay`. -/
def isSubstr (needle : Str) : Str → Bool
  | [] => isPrefixList needle []
  | c :: rest => isPrefixList needle (c :: rest) || isSubstr needle rest

/-- Characters stripped by Python `str.strip()` (ASCII whitespace). -/
def isPySpace (c : Char) : Bool :=
  c = ' ' || c = '\t' || c = '\n' || c = '\r' || c = '\x0b' || c = '\x0c'

/-- Embeds Python `str.strip()`. -/
def stripStr (l : Str) : Str :=
  ((l.dropWhile isPySpace).reverse.dropWhile isPySpace).reverse

/-- Embeds Python `str.lstrip(cs)`: drops leading characters belonging to `cs`. -/
def lstripAny (cs : Str) (l : Str) : Str :=
  l.dropWhile (fun c => cs.contains c)

/-- Embeds Python `str.lower()` (ASCII case folding). -/
def lowerStr (l : Str) : Str := l.map Char.toLower

/-- Embeds Python `str.endswith(c)` for a single character `c`. -/
def endsWithChar (c : Char) (l : Str) : Bool :=
  match l.getLast? with
  | some d => d = c
  | none => false

/-- Embeds Python `content.split('\n')` (keeps empty pieces; `""` gives `[""]`). -/
def splitLines : Str → List Str
  | [] => [[]]
  | c :: rest =>
    let r := splitLines rest
    if c = '\n' then [] :: r
    else
      match r with
      | [] => [[c]]
      | h :: t => (c :: h) :: t

/-- Decimal rendering of a natural number, as an embedded string. -/
def natStr (n : Nat) : Str := (Nat.repr n).toList

/-- Substring after the first colon of a line (Python `line.split(':', 1)[1]`).
Returns `[]` when the line has no colon. -/
def afterFirstColon (l : Str) : Str :=
  (l.dropWhile (fun c => c ≠ ':')).drop 1

/-! ## Data model (`state.py`) -/

/-- Structured research plan created by the planner (`state.py`, `ResearchPlan`). -/
structure ResearchPlan where
  main_topic : Str
  subtopics : List Str
  research_questions : List Str
deriving DecidableEq

/-- Individual research result (`state.py`, `ResearchResult`); the float
`relevance_score` is embedded as a rational. -/
structure ResearchResult where
  query : Str
  content : Str
  source : Str
  relevance_score : ℚ
deriving DecidableEq

/-- Message roles occurring in the workflow. -/
inductive Role
  | user
  | assistant
  | system
deriving DecidableEq

/-- A conversation message: role, text content, optional author tag. -/
structure Msg where
  role : Role
  content : Str
  name : Option String := none
deriving DecidableEq

/-- Shared state of the workflow (`state.py`, `ResearchMultiAgentState`). -/
structure RState where
  messages : List Msg
  research_plan : Option ResearchPlan
  research_results : List ResearchResult
  research_iterations : Nat
  max_research_iterations : Nat
  final_report : Option Str
  current_agent : String
deriving DecidableEq

/-- Partial state update returned by a node; `none` means the key is absent
from the returned dict. -/
structure NodeDelta where
  messages : List Msg := []
  research_plan : Option ResearchPlan := none
  research_results : Option (List ResearchResult) := none
  research_iterations : Option Nat := none
  final_report : Option Str := none
  current_agent : Option String := none
deriving DecidableEq

/-- Merge of a node's partial update into the state, as performed by the
LangGraph controller: `messages` is appended, every other field is replaced
when the delta carries it. -/
def applyDelta (s : RState) (d : NodeDelta) : RState :=
  { messages := s.messages ++ d.messages
    research_plan := match d.research_plan with
      | some p => some p
      | none => s.research_plan
    research_results := d.research_results.getD s.research_results
    research_iterations := d.research_iterations.getD s.research_iterations
    max_research_iterations := s.max_research_iterations
    final_report := match d.final_report with
      | some r => some r
      | none => s.final_report
    current_agent := d.current_agent.getD s.current_agent }

/-! ## Text extractors (`agents/planner.py`) -/

/-- Bullet and numbering characters stripped from extracted plan lines
(the literal argument of `lstrip` in `planner.py`; note `0` is absent). -/
def bulletChars : Str := str "- •*123456789. "

/-- Loop body of `_extract_main_topic` (`planner.py` lines 142-156): first
line mentioning the topic label with a colon and a non-empty remainder. -/
def _extract_main_topicGo : List Str → Option Str
  | [] => none
  | l :: rest =>
    if (isSubstr (str "main topic") (lowerStr l) || isSubstr (str "topic:") (lowerStr l))
        && l.contains ':' then
      let topic := stripStr (afterFirstColon l)
      if topic ≠ [] then some topic else _extract_main_topicGo rest
    else _extract_main_topicGo rest

/-- Embeds `_extract_main_topic` (`planner.py`): labeled topic line if present,
otherwise the fallback (the user query). -/
def _extract_main_topic (content : Str) (fallback : Str) : Str :=
  match _extract_main_topicGo (splitLines content) with
  | some t => t
  | none => fallback

/-- Loop of `_extract_subtopics` (`planner.py` lines 163-182): section-entry on
a line mentioning `subtopic` with a colon, break on a later section header
mentioning `question`, collect cleaned lines longer than 3 characters. -/
def _extract_subtopicsGo : List Str → Bool → List Str → List Str
  | [], _, acc => acc
  | l :: rest, inSection, acc =>
    let line := stripStr l
    if isSubstr (str "subtopic") (lowerStr line) && line.contains ':' then
      _extract_subtopicsGo rest true acc
    else if inSection && line ≠ [] && endsWithChar ':' line
        && isSubstr (str "question") (lowerStr line) then
      acc
    else if inSection && line ≠ [] then
      let cleaned := stripStr (lstripAny bulletChars line)
      if cleaned ≠ [] && cleaned.length > 3 then
        _extract_subtopicsGo rest inSection (acc ++ [cleaned])
      else _extract_subtopicsGo rest inSection acc
    else _extract_subtopicsGo rest inSection acc

/-- Embeds `_extract_subtopics` (`planner.py`): collected section items, with
the single-item fallback substituted inside the function when none are found,
capped at 7. -/
def _extract_subtopics (content : Str) : List Str :=
  let subtopics := _extract_subtopicsGo (splitLines content) false []
  (if subtopics = [] then [str "General research topic"] else subtopics).take 7

/-- Loop of `_extract_research_questions` (`planner.py` lines 196-217):
section-entry on a line mentioning `question` with a colon, break on a later
section header not mentioning `question`, collect cleaned lines longer than 10
characters, suffixing a question mark when missing. -/
def _extract_research_questionsGo : List Str → Bool → List Str → List Str
  | [], _, acc => acc
  | l :: rest, inSection, acc =>
    let line := stripStr l
    if isSubstr (str "question") (lowerStr line) && line.contains ':' then
      _extract_research_questionsGo rest true acc
    else if inSection && line ≠ [] && endsWithChar ':' line
        && !isSubstr (str "question") (lowerStr line) then
      acc
    else if inSection && line ≠ [] then
      let cleaned := stripStr (lstripAny bulletChars line)
      if cleaned ≠ [] && cleaned.length > 10 then
        let q := if !endsWithChar '?' cleaned then cleaned ++ [ '?' ] else cleaned
        _extract_research_questionsGo rest inSection (acc ++ [q])
      else _extract_research_questionsGo rest inSection acc
    else _extract_research_questionsGo rest inSection acc

/-- Embeds `_extract_research_questions` (`planner.py`): collected section
items, with the single-item fallback substituted inside the function when none
are found, capped at 10. -/
def _extract_research_questions (content : Str) : List Str :=
  let questions := _extract_research_questionsGo (splitLines content) false []
  (if questions = [] then [str "What are the key aspects of this topic?"] else questions).take 10





/-! ## Plan stage (`agents/planner.py`, `call_planner_agent`) -/

/-- Outcome of the planner's external collaborators: `genFail err` models an
exception raised before or during the LLM call (caught by the outer handler of
`call_planner_agent`), `extractFail content` models an exception raised while
parsing the generated `content` into a structured plan (caught by the inner
handler), and `genOk content` is a successful generation and parse. -/
inductive PlannerOutcome
  | genFail (err : Str)
  | extractFail (planContent : Str)
  | genOk (planContent : Str)

/-- Content of the last user message of a state, when one exists. -/
def lastUserContent (s : RState) : Option Str :=
  ((s.messages.filter (fun m => m.role = Role.user)).getLast?).map (fun m => m.content)

/-- Content of the last message of any role, or the literal `"Unknown query"`
when the state has no messages (`planner.py` lines 120-128). -/
def lastMsgContentOrUnknown (s : RState) : Str :=
  match s.messages.getLast? with
  | some m => m.content
  | none => str "Unknown query"

/-- Outer exception handler of `call_planner_agent` (`planner.py` lines
112-139): minimal fallback plan built from the last message of the state
(of any role), with the agent advanced to the researcher. -/
def plannerOuterFallback (s : RState) (err : Str) : NodeDelta :=
  let userQuery := lastMsgContentOrUnknown s
  { messages := [⟨Role.assistant, str "Error creating research plan: " ++ err, some "planner"⟩]
    research_plan := some ⟨userQuery,
      [str "General research on: " ++ userQuery],
      [str "What information is available about: " ++ userQuery ++ str "?"]⟩
    current_agent := some "researcher" }

/-- Assistant message summarizing the generated plan (`planner.py` lines 101-104). -/
def planMessage (planContent : Str) : Msg :=
  ⟨Role.assistant, str "Research plan created:\n\n" ++ planContent, some "planner"⟩

/-- Embeds `call_planner_agent` (`planner.py`): extracts the last user message,
invokes the LLM (oracle `o`), parses the response into a structured plan, and
on any exception substitutes a fallback plan instead of raising. -/
def call_planner_agent (o : PlannerOutcome) (s : RState) : NodeDelta :=
  match (s.messages.filter (fun m => m.role = Role.user)).getLast? with
  | none =>
    -- `raise ValueError("No user message found for research planning")`,
    -- caught by the outer handler
    plannerOuterFallback s (str "No user message found for research planning")
  | some lastUser =>
    match o with
    | PlannerOutcome.genFail err => plannerOuterFallback s err
    | PlannerOutcome.extractFail planContent =>
      -- inner handler (`planner.py` lines 91-98): fallback plan from the
      -- last user message
      { messages := [planMessage planContent]
        research_plan := some ⟨lastUser.content,
          [str "Research aspect of: " ++ lastUser.content],
          [str "What information is available about: " ++ lastUser.content ++ str "?"]⟩
        current_agent := some "researcher" }
    | PlannerOutcome.genOk planContent =>
      { messages := [planMessage planContent]
        research_plan := some ⟨_extract_main_topic planContent lastUser.content,
          _extract_subtopics planContent,
          _extract_research_questions planContent⟩
        current_agent := some "researcher" }

/-! ## Research stage (`agents/researcher.py`) -/

/-- Result of `json.loads` on a tool-result payload, abstracted to the shape
`_create_research_result` inspects: a non-empty JSON list whose first element
is a well-shaped object (fields of that element), a well-shaped JSON object
(its fields), anything that is not a JSON list or object (decode failure, an
empty list, or a non-list non-dict value), which falls through to the raw-text
branch, or a `malformed` payload: one that decodes but whose structured branch
raises a non-decode exception — a list whose first element is not an object
(e.g. `[5]`), a non-string `content` field that cannot be sliced, or a score
value rejected by validation — sending control to the outer handler of
`_create_research_result`. Field values are `none` when the corresponding key
is absent. -/
inductive ParsedPayload
  | jsonList (content : Option Str) (url : Option Str) (score : Option ℚ)
  | jsonObj (content : Option Str) (url : Option Str) (score : Option ℚ)
  | notJson
  | malformed
deriving DecidableEq

/-- Embeds `_create_research_result` (`researcher.py` lines 232-274): builds a
`ResearchResult` from a query and a tool payload, via the JSON decode oracle
`parse`. The `content` field is truncated to 2000 characters; `url` and
`score` default to `"Unknown source"` and `0.8`. On a `malformed` payload the
outer exception handler (`researcher.py` lines 267-274) returns the untruncated
literal `"Research result for: " + query` with source `"Research agent"` and
score `0.5`. -/
def _create_research_result (parse : Str → ParsedPayload) (query content : Str) :
    ResearchResult :=
  match parse content with
  | ParsedPayload.jsonList c u sc =>
    ⟨query, (c.getD content).take 2000, u.getD (str "Unknown source"), sc.getD 0.8⟩
  | ParsedPayload.jsonObj c u sc =>
    ⟨query, (c.getD content).take 2000, u.getD (str "Unknown source"), sc.getD 0.8⟩
  | ParsedPayload.notJson =>
    ⟨query, content.take 2000, str "Web search result", 0.8⟩
  | ParsedPayload.malformed =>
    ⟨query, str "Research result for: " ++ query, str "Research agent", 0.5⟩

/-- Embeds `_extract_from_content` (`researcher.py` lines 277-293): synthesizes
one analysis result from substantial content (more than 100 characters). -/
def _extract_from_content (content : Str) (main_topic : Str) : List ResearchResult :=
  if 100 < content.length then
    [⟨str "Research on " ++ main_topic, content.take 2000,
      str "Research agent analysis", 0.7⟩]
  else []

/-- A tool invocation record inside a transcript message (`tool_call.get('name')`,
`tool_call.get('args', {}).get('query', '')`, `tool_call.get('id')`). -/
structure ToolCall where
  tcName : Str
  query : Str
  callId : Str
deriving DecidableEq

/-- A transcript message returned by the tool-using ReAct agent: tool
invocations carried by the message, its text content, and — for tool-result
messages — the identifier of the call it answers (`none` models a message
without the `tool_call_id` attribute). -/
structure TMsg where
  tool_calls : List ToolCall
  content : Str
  tool_call_id : Option Str
deriving DecidableEq

/-- Embeds `_find_tool_result` (`researcher.py` lines 223-229): content of the
first message answering the given call identifier, or the empty string. -/
def _find_tool_result (messages : List TMsg) (callId : Str) : Str :=
  match messages.find? (fun m => m.tool_call_id = some callId) with
  | some m => m.content
  | none => []

/-- Results extracted from the tool calls of one message (`researcher.py`
lines 191-200): for every `tavily_search` call with a non-empty query whose
tool result can be located, one `ResearchResult` built by
`_create_research_result`. The guard on `message.tool_calls` being non-empty
is kept from the source although it does not change the value. -/
def toolCallResults (parse : Str → ParsedPayload) (messages : List TMsg) (m : TMsg) :
    List ResearchResult :=
  if m.tool_calls = [] then []
  else m.tool_calls.filterMap (fun tc =>
    if tc.tcName = str "tavily_search" && tc.query ≠ [] then
      let resultContent := _find_tool_result messages tc.callId
      if resultContent ≠ [] then
        some (_create_research_result parse tc.query resultContent)
      else none
    else none)

/-- Results extracted from the text content of one message (`researcher.py`
lines 203-206): the analysis fallback fires whenever the content mentions
`tavily_search`, independently of the message's tool calls. -/
def contentResults (m : TMsg) (main_topic : Str) : List ResearchResult :=
  if isSubstr (str "tavily_search") m.content then
    _extract_from_content m.content main_topic
  else []

/-- Embeds `_extract_research_results_from_response` (`researcher.py` lines
181-220): per transcript message, first the tool-call results, then the
content-based results, concatenated in message order. -/
def _extract_research_results_from_response (parse : Str → ParsedPayload)
    (messages : List TMsg) (main_topic : Str) : List ResearchResult :=
  messages.flatMap (fun m => toolCallResults parse messages m ++ contentResults m main_topic)

/-- Models the handler of `_extract_research_results_from_response`
(`researcher.py` lines 208-218) reached when extraction itself raises: one
basic result from the content of the final transcript message, truncated to
1000 characters, with score `0.8`. -/
def extractionFailureFallback (lastContent : Str) (main_topic : Str) : ResearchResult :=
  ⟨str "Research on " ++ main_topic, lastContent.take 1000,
    str "Generated from research agent", 0.8⟩

/-- Embeds `_should_continue_research` (`researcher.py` lines 296-317) as a
function of the pre-increment iteration count, the iteration budget, the
number of plan subtopics and the number of accumulated results. Rule 4 uses
Python floor division. -/
def _should_continue_research (research_iterations max_research_iterations
    subtopicCount resultCount : Nat) : Bool :=
  if max_research_iterations ≤ research_iterations + 1 then false
  else if resultCount < subtopicCount * 2 then true
  else if resultCount / (research_iterations + 1) * (research_iterations + 1)
      < subtopicCount then true
  else false

/-- Outcome of the research stage's external collaborators: `failure err`
models an exception raised anywhere in the body (tool preparation, the ReAct
agent call, …), `success transcript` is a completed agent run returning the
given transcript. -/
inductive ResearchOutcome
  | failure (err : Str)
  | success (transcript : List TMsg)

/-- Exception handler of `call_research_agent` (`researcher.py` lines
119-131): keeps the existing results, still increments the iteration counter,
and forces the writer. -/
def researcherErrorDelta (s : RState) (err : Str) : NodeDelta :=
  { messages := [⟨Role.assistant, str "Error during research: " ++ err, some "researcher"⟩]
    research_results := some s.research_results
    research_iterations := some (s.research_iterations + 1)
    current_agent := some "writer" }

/-- Embeds `call_research_agent` (`researcher.py` lines 20-131). With no plan
the stage raises and its handler advances to the writer; at or over budget the
stage skips, returning the iteration counter unchanged; otherwise it runs the
agent, extracts and appends new results, increments the counter, and picks the
next agent by `_should_continue_research`. -/
def call_research_agent (parse : Str → ParsedPayload) (o : ResearchOutcome)
    (s : RState) : NodeDelta :=
  match s.research_plan with
  | none =>
    -- `raise ValueError("No research plan available for research execution")`
    researcherErrorDelta s (str "No research plan available for research execution")
  | some plan =>
    if s.max_research_iterations ≤ s.research_iterations then
      { messages := [⟨Role.assistant,
          str "Research completed. Maximum iterations ("
            ++ natStr s.max_research_iterations ++ str ") reached. Gathered "
            ++ natStr s.research_results.length ++ str " research results.",
          some "researcher"⟩]
        research_iterations := some s.research_iterations
        current_agent := some "writer" }
    else
      match o with
      | ResearchOutcome.failure err => researcherErrorDelta s err
      | ResearchOutcome.success transcript =>
        let newResults :=
          _extract_research_results_from_response parse transcript plan.main_topic
        let allResults := s.research_results ++ newResults
        let shouldCont := _should_continue_research s.research_iterations
          s.max_research_iterations plan.subtopics.length allResults.length
        let researchMsg : Msg := ⟨Role.assistant,
          str "Research iteration " ++ natStr (s.research_iterations + 1)
            ++ str " completed. Found " ++ natStr newResults.length
            ++ str " new results. Total results: " ++ natStr allResults.length,
          some "researcher"⟩
        let finalMsg : Msg := ⟨Role.assistant,
          str "Research phase completed. Gathered " ++ natStr allResults.length
            ++ str " total research results across " ++ natStr plan.subtopics.length
            ++ str " subtopics. Ready for report writing.",
          some "researcher"⟩
        { messages := if shouldCont then [researchMsg] else [researchMsg, finalMsg]
          research_results := some allResults
          research_iterations := some (s.research_iterations + 1)
          current_agent := some (if shouldCont then "researcher" else "writer") }

/-- Embeds `_should_continue_research_decision` (`graph.py` lines 157-193):
the external router evaluated on the merged state after a researcher step. -/
def _should_continue_research_decision (s : RState) : String :=
  if s.max_research_iterations ≤ s.research_iterations then "write"
  else
    match s.research_plan with
    | none => "write"
    | some plan =>
      if s.research_results.length < plan.subtopics.length * 2 then "continue"
      else if s.current_agent = "writer" then "write"
      else "continue"

/-! ## Write stage (`agents/writer.py`) -/

/-- Source-appendix entries of `_enhance_report_formatting` (`writer.py` lines
222-227): one numbered line per first occurrence of a source other than the
literal `"Unknown source"`; `i` is the 1-based position in the full result
list (so numbering can skip), `seen` the set of sources already listed. -/
def sourcesEntries : List ResearchResult → Nat → List Str → Str
  | [], _, _ => []
  | r :: rest, i, seen =>
    if r.source ∉ seen ∧ r.source ≠ str "Unknown source" then
      natStr i ++ str ". " ++ r.source ++ str "\n"
        ++ sourcesEntries rest (i + 1) (r.source :: seen)
    else sourcesEntries rest (i + 1) seen

/-- Metadata header prepended by `_enhance_report_formatting` (`writer.py`
lines 208-217); the stamped date is an oracle input. -/
def mkMetadata (plan : Option ResearchPlan) (resultCount : Nat)
    (iterations : Nat) (date : Str) : Str :=
  let mainTopic := match plan with
    | some p => p.main_topic
    | none => str "Unknown Topic"
  str "# Research Report\n\n**Topic:** " ++ mainTopic
    ++ str "\n**Research Date:** " ++ date
    ++ str "\n**Sources Consulted:** " ++ natStr resultCount
    ++ str " research sources\n**Research Iterations:** " ++ natStr iterations
    ++ str "\n\n---\n\n"

/-- Embeds `_enhance_report_formatting` (`writer.py` lines 199-231): prepends
the metadata header and appends a source appendix when results exist and the
report does not already mention `"sources:"` (case-insensitively). -/
def _enhance_report_formatting (report : Str) (plan : Option ResearchPlan)
    (results : List ResearchResult) (iterations : Nat) (date : Str) : Str :=
  let metadata := mkMetadata plan results.length iterations date
  let report2 :=
    if results ≠ [] ∧ isSubstr (str "sources:") (lowerStr report) = false then
      report ++ str "\n\n## Sources\n\n" ++ sourcesEntries results 1 []
    else report
  metadata ++ report2

/-- Bulleted line list used in the fallback report (`"- {item}"` joined by
newlines). -/
def bulletJoin (items : List Str) : Str :=
  List.intercalate (str "\n") (items.map (fun x => str "- " ++ x))

/-- Key-findings block of the fallback report (`writer.py` lines 294-300):
first three results, content previews truncated to 200 characters. -/
def fallbackFindings : List ResearchResult → Nat → Str
  | [], _ => []
  | r :: rest, i =>
    str "\n" ++ natStr i ++ str ". **" ++ r.query ++ str "**\n   - "
      ++ r.content.take 200 ++ str "...\n   - Source: " ++ r.source ++ str "\n"
      ++ fallbackFindings rest (i + 1)

/-- Embeds `_create_fallback_report` (`writer.py` lines 234-310): deterministic
report assembled from the plan and results when report generation fails. -/
def _create_fallback_report (s : RState) (errorMsg : Str) : Str :=
  let originalQuery := match (s.messages.filter (fun m => m.role = Role.user)).head? with
    | some m => m.content
    | none => str "Unknown query"
  let mainTopic := match s.research_plan with
    | some p => p.main_topic
    | none => originalQuery
  let base := str "# Research Report - Summary\n\n**Topic:** " ++ mainTopic
    ++ str "\n**Status:** Partial report due to processing error\n\n## Summary\n\n"
    ++ str "This is a summary report generated after encountering an error during full report generation.\n\n"
    ++ str "**Original Query:** " ++ originalQuery ++ str "\n\n"
  let withPlan := match s.research_plan with
    | some p => base ++ str "## Research Plan\n\n**Main Topic:** " ++ p.main_topic
      ++ str "\n\n**Subtopics Investigated:**\n" ++ bulletJoin p.subtopics
      ++ str "\n\n**Key Research Questions:**\n" ++ bulletJoin (p.research_questions.take 5)
      ++ str "\n\n"
    | none => base
  let withFindings :=
    if s.research_results ≠ [] then
      withPlan ++ str "## Research Findings Summary\n\n**Total Sources Consulted:** "
        ++ natStr s.research_results.length
        ++ str "\n**Research Iterations Completed:** " ++ natStr s.research_iterations
        ++ str "\n\n**Key Findings:**\n"
        ++ fallbackFindings (s.research_results.take 3) 1
    else withPlan
  withFindings ++ str "\n## Note\n\nThis report was generated in summary mode due to a processing error: "
    ++ errorMsg ++ str "\n\nFor a complete analysis, please retry the research request.\n"

/-- Outcome of the writer's external collaborators: `failure err` models an
exception raised while generating the report, `success report` a completed
LLM call returning the report text. -/
inductive WriterOutcome
  | failure (err : Str)
  | success (report : Str)

/-- Exception handler of `call_writer_agent` (`writer.py` lines 113-149):
deterministic fallback report, with the workflow still marked completed. -/
def writerFallbackDelta (s : RState) (err : Str) : NodeDelta :=
  let fb := _create_fallback_report s err
  { messages := [⟨Role.assistant,
      str "Report generation encountered an error, but a summary report was created:\n\n" ++ fb,
      some "writer"⟩]
    final_report := some fb
    current_agent := some "completed" }

/-- Embeds `call_writer_agent` (`writer.py` lines 18-149): requires a user
message and a plan (raising into the handler otherwise), invokes the synthesis
LLM, enhances the report, and on any failure emits the fallback report; the
workflow reaches `completed` on every path. -/
def call_writer_agent (o : WriterOutcome) (date : Str) (s : RState) : NodeDelta :=
  match (s.messages.filter (fun m => m.role = Role.user)).head? with
  | none =>
    -- `raise ValueError("No user query found for report writing")`
    writerFallbackDelta s (str "No user query found for report writing")
  | some firstUser =>
    match s.research_plan with
    | none =>
      -- `raise ValueError("No research plan available for report writing")`
      writerFallbackDelta s (str "No research plan available for report writing")
    | some plan =>
      match o with
      | WriterOutcome.failure err => writerFallbackDelta s err
      | WriterOutcome.success report =>
        let enhanced := _enhance_report_formatting report (some plan)
          s.research_results s.research_iterations date
        { messages := [⟨Role.assistant,
            str "Research report completed for: " ++ firstUser.content
              ++ str "\n\n" ++ enhanced,
            some "writer"⟩]
          final_report := some enhanced
          current_agent := some "completed" }

/-! ## Pipeline controller (`graph.py`) -/

/-- Nodes of the workflow graph; `stop` stands for LangGraph's `END`. -/
inductive GNode
  | start
  | planner
  | researcher
  | writer
  | stop
deriving DecidableEq

/-- A conditional edge registered with `add_conditional_edges`: source node,
routing function on the merged state, and the mapping from routing labels to
target nodes. -/
structure CondEdge where
  source : GNode
  router : RState → String
  targets : List (String × GNode)

/-- A built graph: the plain edges added with `add_edge` plus the conditional
edges. -/
structure GraphDef where
  edges : List (GNode × GNode)
  conditionals : List CondEdge

/-- Embeds `create_research_multi_agent_graph` (`graph.py` lines 21-79): the
deterministic linear flow with no conditional edges. -/
def researchGraph : GraphDef :=
  { edges := [(GNode.start, GNode.planner), (GNode.planner, GNode.researcher),
      (GNode.researcher, GNode.writer), (GNode.writer, GNode.stop)]
    conditionals := [] }

/-- Embeds `create_research_multi_agent_graph_with_loops` (`graph.py` lines
83-154): the same nodes, with the researcher's successor chosen by
`_should_continue_research_decision`. -/
def researchGraphWithLoops : GraphDef :=
  { edges := [(GNode.start, GNode.planner), (GNode.planner, GNode.researcher),
      (GNode.writer, GNode.stop)]
    conditionals := [⟨GNode.researcher, _should_continue_research_decision,
      [("continue", GNode.researcher), ("write", GNode.writer)]⟩] }

/-- Successor of a node on the given (already updated) state: a conditional
edge takes precedence, otherwise the first plain edge out of the node. -/
def nextNode (g : GraphDef) (n : GNode) (s : RState) : Option GNode :=
  match g.conditionals.find? (fun ce => ce.source = n) with
  | some ce => (ce.targets.find? (fun t => t.1 = ce.router s)).map (fun t => t.2)
  | none => (g.edges.find? (fun e => e.1 = n)).map (fun e => e.2)

/-- Collaborator oracles for one workflow run: the planner outcome, the
researcher outcome per researcher invocation, the JSON decoder, the writer
outcome, and the stamped date. -/
structure Oracles where
  plannerO : PlannerOutcome
  researcherO : Nat → ResearchOutcome
  parse : Str → ParsedPayload
  writerO : WriterOutcome
  date : Str

/-- Executes one node: returns the merged state and the updated count of
researcher invocations (used to index the researcher oracle). -/
def nodeStep (o : Oracles) (rc : Nat) (n : GNode) (s : RState) : RState × Nat :=
  match n with
  | GNode.planner => (applyDelta s (call_planner_agent o.plannerO s), rc)
  | GNode.researcher =>
    (applyDelta s (call_research_agent o.parse (o.researcherO rc) s), rc + 1)
  | GNode.writer => (applyDelta s (call_writer_agent o.writerO o.date s), rc)
  | _ => (s, rc)

/-- Fueled execution of a graph from a node: returns the list of executed
(stage) nodes in order and the final state. `start` and `stop` are not stages
and are not recorded. -/
def execNodes (g : GraphDef) (o : Oracles) :
    Nat → GNode → RState → Nat → List GNode × RState
  | 0, _, s, _ => ([], s)
  | fuel + 1, n, s, rc =>
    match n with
    | GNode.stop => ([], s)
    | GNode.start =>
      match nextNode g GNode.start s with
      | some n2 => execNodes g o fuel n2 s rc
      | none => ([], s)
    | _ =>
      let p := nodeStep o rc n s
      match nextNode g n p.1 with
      | some n2 =>
        let q := execNodes g o fuel n2 p.1 p.2
        (n :: q.1, q.2)
      | none => ([n], p.1)

/-! ## Concrete inputs used by witnesses and counterexamples -/

/-- JSON decode oracle that always reports a decode failure. -/
def parseNone : Str → ParsedPayload := fun _ => ParsedPayload.notJson

/-- JSON decode oracle returning an object whose `score` field is `5.0`,
outside `[0,1]`. -/
def parseScoreFive : Str → ParsedPayload :=
  fun _ => ParsedPayload.jsonObj (some (str "X")) (some (str "http://a")) (some 5)

/-- JSON decode oracle that always reports a malformed payload, as produced by
`json.loads` on inputs such as `[5]` (a list whose first element is not an
object). -/
def parseMalformed : Str → ParsedPayload := fun _ => ParsedPayload.malformed

/-- A 2000-character search query, long enough that the exception-path content
`"Research result for: " + query` exceeds 2000 characters. -/
def longQuery : Str := List.replicate 2000 'q'

/-- Scores carried by a parsed payload lie in `[0,1]` (true by convention when
the payload has no score field, since the literals `0.8` and `0.5` produced on
those paths are in range). -/
def payloadScoreOk : ParsedPayload → Prop
  | ParsedPayload.jsonList _ _ (some sc) => 0 ≤ sc ∧ sc ≤ 1
  | ParsedPayload.jsonObj _ _ (some sc) => 0 ≤ sc ∧ sc ≤ 1
  | _ => True

/-- A small research plan with a single subtopic. -/
def demoPlan : ResearchPlan :=
  ⟨str "project tooling", [str "alpha beta"], [str "what is alpha?"]⟩

/-- State entering the researcher with its iteration budget already consumed. -/
def skipState : RState :=
  { messages := [⟨Role.user, str "Q", none⟩]
    research_plan := some demoPlan
    research_results := []
    research_iterations := 5
    max_research_iterations := 5
    final_report := none
    current_agent := "researcher" }

/-- State whose last message is an assistant message, while the last user
message says something different. -/
def demoPlannerState : RState :=
  { messages := [⟨Role.user, str "A", none⟩, ⟨Role.assistant, str "B", none⟩]
    research_plan := none
    research_results := []
    research_iterations := 0
    max_research_iterations := 5
    final_report := none
    current_agent := "planner" }

/-- State entering the researcher with a plan, an empty result list and a
fresh iteration counter. -/
def c2State : RState :=
  { messages := [⟨Role.user, str "Q", none⟩]
    research_plan := some demoPlan
    research_results := []
    research_iterations := 0
    max_research_iterations := 5
    final_report := none
    current_agent := "researcher" }

/-- Transcript content longer than 100 characters that mentions the search
capability. -/
def longAnalysis : Str :=
  str "Based on tavily_search results, quantum computing advanced rapidly in 2025 across hardware, algorithms and error correction research."

/-- Transcript message carrying a located `tavily_search` tool call and, at the
same time, qualifying analysis content. -/
def demoToolMsg : TMsg :=
  ⟨[⟨str "tavily_search", str "climate trends", str "call1"⟩], longAnalysis, none⟩

/-- Transcript message answering the tool call of `demoToolMsg`. -/
def demoResultMsg : TMsg := ⟨[], str "raw tool payload", some (str "call1")⟩

/-- Result list all of whose entries carry the literal `"Unknown source"`. -/
def unknownOnlyResults : List ResearchResult :=
  [⟨str "q", str "content", str "Unknown source", 0.8⟩]

/-- Oracles of a run whose researcher always fails. -/
def demoOracles : Oracles :=
  { plannerO := PlannerOutcome.genOk
      (str "Subtopics:\n- quantum hardware basics\nQuestions:\n- what are the trends here")
    researcherO := fun _ => ResearchOutcome.failure (str "tool error")
    parse := parseNone
    writerO := WriterOutcome.success (str "Report body")
    date := str "2026-01-01" }

/-- Initial state with an iteration budget of zero. -/
def zeroBudgetState : RState :=
  { messages := [⟨Role.user, str "quantum computing trends", none⟩]
    research_plan := none
    research_results := []
    research_iterations := 0
    max_research_iterations := 0
    final_report := none
    current_agent := "planner" }

/-- Initial state with the default iteration budget of five. -/
def defaultState : RState :=
  { zeroBudgetState with max_research_iterations := 5 }

/-! ## Claims -/

/-- Claim C3, counterexample: with pre-increment iteration count 2 (updated
count 3, below the budget 5), one non-empty subtopic and 2 accumulated results
(at least two per subtopic), the Continuation Policy evaluated inside the
Research stage returns continue, not advance: floor division makes rule 4 fire
although rule 3's condition is false. -/
theorem C3_counterexample :
    _should_continue_research 2 5 1 2 = true
      ∧ 2 + 1 < 5 ∧ 1 ≤ 1 ∧ 1 * 2 ≤ 2 := by decide

/-- Claim C3, amended: with the updated iteration count below the budget, a
non-empty subtopic list of size `s`, at least `2 * s` accumulated results and,
additionally, at least `s + k` results (which forces rule 4's floor-division
coverage to reach `s`), the Continuation Policy returns advance. -/
theorem C3_rule4_advance (k m s r : Nat) (h1 : k + 1 < m) (_hs : 1 ≤ s)
    (h3 : s * 2 ≤ r) (h4 : s + k ≤ r) :
    _should_continue_research k m s r = false := by
  have h5 : ¬ (m ≤ k + 1) := by omega
  have h6 : ¬ (r < s * 2) := by omega
  have h7 : ¬ (r / (k + 1) * (k + 1) < s) := by
    intro hcon
    have hd := Nat.div_add_mod r (k + 1)
    have hm : r % (k + 1) < k + 1 := Nat.mod_lt _ (Nat.succ_pos k)
    rw [Nat.mul_comm] at hcon
    generalize hX : (k + 1) * (r / (k + 1)) = X at hd hcon
    generalize hM : r % (k + 1) = M at hd hm
    omega
  unfold _should_continue_research
  rw [if_neg h5, if_neg h6, if_neg h7]

/-- Witness for `C3_rule4_advance` at `k = 0`, `m = 2`, `s = 1`, `r = 2`. -/
theorem C3_rule4_advance_witness :
    (0 + 1 < 2 ∧ 1 ≤ 1 ∧ 1 * 2 ≤ 2 ∧ 1 + 0 ≤ 2)
      ∧ _should_continue_research 0 2 1 2 = false :=
  ⟨by decide, C3_rule4_advance 0 2 1 2 (by decide) (by decide) (by decide) (by decide)⟩

/-- Claim C4, counterexample: on the skip path (budget already consumed at
entry), the Research stage returns the iteration counter unchanged, not
incremented by one. -/
theorem C4_counterexample :
    (call_research_agent parseNone (ResearchOutcome.success []) skipState).research_iterations
        = some skipState.research_iterations
      ∧ (call_research_agent parseNone (ResearchOutcome.success []) skipState).research_iterations
        ≠ some (skipState.research_iterations + 1) := by decide

/-- Claim C4, amended: one invocation of the Research stage returns a delta
whose `research_iterations` is the input counter plus one on the successful
and exception paths (including the missing-plan path), and the input counter
unchanged on the skip path taken when the budget is already consumed. -/
theorem C4_iteration_counter (parse : Str → ParsedPayload) (o : ResearchOutcome)
    (s : RState) :
    (call_research_agent parse o s).research_iterations =
      some (match s.research_plan with
        | none => s.research_iterations + 1
        | some _ =>
          if s.max_research_iterations ≤ s.research_iterations
          then s.research_iterations
          else s.research_iterations + 1) := by
  cases hp : s.research_plan with
  | none => cases o <;> simp [call_research_agent, researcherErrorDelta, hp]
  | some plan =>
    by_cases hb : s.max_research_iterations ≤ s.research_iterations
    · cases o <;> simp [call_research_agent, hp, hb]
    · cases o <;> simp [call_research_agent, researcherErrorDelta, hp, hb]

/-- When no line of the input triggers the subtopics section entry, the
collection loop never enters the section and returns its accumulator. -/
theorem subtopicsGo_no_entry (lines : List Str) (acc : List Str)
    (h : ∀ l ∈ lines,
      (isSubstr (str "subtopic") (lowerStr (stripStr l)) && (stripStr l).contains ':') = false) :
    _extract_subtopicsGo lines false acc = acc := by
  induction lines with
  | nil => rfl
  | cons l rest ih =>
    have h1 := h l (by simp)
    simp only [_extract_subtopicsGo, h1, Bool.false_and, Bool.false_eq_true, if_false]
    exact ih (fun x hx => h x (by simp [hx]))

/-- When no line of the input triggers the questions section entry, the
collection loop never enters the section and returns its accumulator. -/
theorem questionsGo_no_entry (lines : List Str) (acc : List Str)
    (h : ∀ l ∈ lines,
      (isSubstr (str "question") (lowerStr (stripStr l)) && (stripStr l).contains ':') = false) :
    _extract_research_questionsGo lines false acc = acc := by
  induction lines with
  | nil => rfl
  | cons l rest ih =>
    have h1 := h l (by simp)
    simp only [_extract_research_questionsGo, h1, Bool.false_and, Bool.false_eq_true, if_false]
    exact ih (fun x hx => h x (by simp [hx]))

/-- Claim C6, counterexample: on an input where the section keyword never
appears on a line with a colon, each extractor returns its single-item
fallback list itself — not the empty list; the fallback is substituted inside
the extractor, not by its caller. -/
theorem C6_counterexample :
    _extract_subtopics (str "no sections here") = [str "General research topic"]
      ∧ _extract_subtopics (str "no sections here") ≠ []
      ∧ _extract_research_questions (str "no sections here")
        = [str "What are the key aspects of this topic?"]
      ∧ _extract_research_questions (str "no sections here") ≠ [] := by decide

/-- Claim C6, amended: for every input text in which the section keyword never
appears (after stripping) on a line together with a colon, the extractor
itself returns its single-item fallback list (`["General research topic"]` for
subtopics, `["What are the key aspects of this topic?"]` for questions); the
fallback is applied inside the extractor function, not by the caller. -/
theorem C6_fallback_inside_extractor :
    (∀ content, (∀ l ∈ splitLines content,
        (isSubstr (str "subtopic") (lowerStr (stripStr l)) && (stripStr l).contains ':') = false) →
      _extract_subtopics content = [str "General research topic"])
    ∧ (∀ content, (∀ l ∈ splitLines content,
        (isSubstr (str "question") (lowerStr (stripStr l)) && (stripStr l).contains ':') = false) →
      _extract_research_questions content = [str "What are the key aspects of this topic?"]) := by
  constructor
  · intro content h
    simp [_extract_subtopics, subtopicsGo_no_entry (splitLines content) [] h]
  · intro content h
    simp [_extract_research_questions, questionsGo_no_entry (splitLines content) [] h]

/-- Witness for `C6_fallback_inside_extractor` on the text `"plain text"`. -/
theorem C6_fallback_inside_extractor_witness :
    _extract_subtopics (str "plain text") = [str "General research topic"]
      ∧ _extract_research_questions (str "plain text")
        = [str "What are the key aspects of this topic?"] :=
  ⟨C6_fallback_inside_extractor.1 (str "plain text") (by decide),
   C6_fallback_inside_extractor.2 (str "plain text") (by decide)⟩

/-- Claim C9, counterexample: on the JSON-object parse path the relevance
score is copied unclamped from the payload, so a payload score of `5.0` yields
a `ResearchResult` whose `relevance_score` lies outside `[0,1]`; and on the
exception path reached by an ill-shaped JSON payload such as `[5]`, the
content `"Research result for: " + query` is not truncated, so a
2000-character query yields content of length 2021. -/
theorem C9_counterexample :
    (_create_research_result parseScoreFive (str "q") (str "payload")).relevance_score = 5
      ∧ ¬ ((_create_research_result parseScoreFive (str "q") (str "payload")).relevance_score ≤ 1)
      ∧ (_create_research_result parseMalformed longQuery (str "[5]")).content.length = 2021
      ∧ ¬ ((_create_research_result parseMalformed longQuery (str "[5]")).content.length ≤ 2000)
      ∧ (_create_research_result parseMalformed longQuery (str "[5]")).relevance_score = 0.5 := by
  have hl : (_create_research_result parseMalformed longQuery (str "[5]")).content.length
      = 2021 := by
    rw [show (_create_research_result parseMalformed longQuery (str "[5]")).content
      = str "Research result for: " ++ longQuery from rfl]
    rw [List.length_append]
    rw [show (str "Research result for: ").length = 21 from rfl]
    rw [show longQuery.length = 2000 from by
      unfold longQuery; exact List.length_replicate 2000 'q']
  refine ⟨rfl, ?_, hl, by omega, rfl⟩
  rw [show (_create_research_result parseScoreFive (str "q") (str "payload")).relevance_score
    = 5 from rfl]
  norm_num

/-- Claim C9, amended: every `Result` produced by the extraction functions has
content no longer than 2000 characters on the JSON-list, JSON-object and
raw-text paths, and no longer than 1000 on the total-extraction-failure path;
on the exception path of `_create_research_result` (reached by ill-shaped JSON
payloads) the content is the untruncated literal `"Research result for: "`
followed by the query, which can exceed 2000 characters, with score `0.5`.
The relevance score is in `[0,1]` on the raw-text (`0.8`), analysis (`0.7`),
total-failure (`0.8`) and exception (`0.5`) paths, while on the JSON
list/object paths it is copied unclamped from the payload (default `0.8`) and
lies in `[0,1]` only if the payload's score does. -/
theorem C9_result_bounds :
    (∀ (parse : Str → ParsedPayload) q c, parse c ≠ ParsedPayload.malformed →
        (_create_research_result parse q c).content.length ≤ 2000)
    ∧ (∀ (parse : Str → ParsedPayload) q c, parse c = ParsedPayload.malformed →
        _create_research_result parse q c
          = ⟨q, str "Research result for: " ++ q, str "Research agent", 0.5⟩)
    ∧ (∀ (parse : Str → ParsedPayload) q c, payloadScoreOk (parse c) →
        0 ≤ (_create_research_result parse q c).relevance_score
          ∧ (_create_research_result parse q c).relevance_score ≤ 1)
    ∧ (∀ c t r, r ∈ _extract_from_content c t →
        r.content.length ≤ 2000 ∧ r.relevance_score = 0.7)
    ∧ (∀ lc t, (extractionFailureFallback lc t).content.length ≤ 1000
        ∧ (extractionFailureFallback lc t).relevance_score = 0.8) := by
  refine ⟨?_, ?_, ?_, ?_, ?_⟩
  · intro parse q c hm
    unfold _create_research_result
    cases hp : parse c with
    | jsonList cf u sc => simp [List.length_take]
    | jsonObj cf u sc => simp [List.length_take]
    | notJson => simp [List.length_take]
    | malformed => exact absurd hp hm
  · intro parse q c hm
    unfold _create_research_result
    rw [hm]
  · intro parse q c hok
    unfold _create_research_result
    unfold payloadScoreOk at hok
    cases hp : parse c with
    | jsonList cf u sc =>
      rw [hp] at hok
      cases sc with
      | none => norm_num
      | some v => simpa using hok
    | jsonObj cf u sc =>
      rw [hp] at hok
      cases sc with
      | none => norm_num
      | some v => simpa using hok
    | notJson => norm_num
    | malformed => norm_num
  · intro c t r hr
    unfold _extract_from_content at hr
    by_cases hl : 100 < c.length
    · rw [if_pos hl] at hr
      simp only [List.mem_singleton] at hr
      subst hr
      exact ⟨by simp [List.length_take], rfl⟩
    · rw [if_neg hl] at hr
      simp at hr
  · intro lc t
    exact ⟨by simp [extractionFailureFallback, List.length_take], rfl⟩

set_option maxRecDepth 10000 in
/-- Witness for `C9_result_bounds`: the content-bound conjunct and the score
conjunct applied to the always-failing JSON decoder, the exception-path
conjunct applied to the always-malformed decoder, and the analysis conjunct
applied to a concrete long content. -/
theorem C9_result_bounds_witness :
    (parseNone (str "payload") ≠ ParsedPayload.malformed
      ∧ (_create_research_result parseNone (str "q") (str "payload")).content.length ≤ 2000)
    ∧ (parseMalformed (str "[5]") = ParsedPayload.malformed
      ∧ _create_research_result parseMalformed (str "q") (str "[5]")
        = ⟨str "q", str "Research result for: " ++ str "q", str "Research agent", 0.5⟩)
    ∧ (payloadScoreOk (parseNone (str "payload"))
      ∧ 0 ≤ (_create_research_result parseNone (str "q") (str "payload")).relevance_score
      ∧ (_create_research_result parseNone (str "q") (str "payload")).relevance_score ≤ 1)
    ∧ (⟨str "Research on " ++ str "QC", longAnalysis.take 2000,
          str "Research agent analysis", 0.7⟩ : ResearchResult)
        ∈ _extract_from_content longAnalysis (str "QC")
    ∧ (⟨str "Research on " ++ str "QC", longAnalysis.take 2000,
          str "Research agent analysis", 0.7⟩ : ResearchResult).content.length ≤ 2000
    ∧ (⟨str "Research on " ++ str "QC", longAnalysis.take 2000,
          str "Research agent analysis", 0.7⟩ : ResearchResult).relevance_score = 0.7 := by
  have hmem : (⟨str "Research on " ++ str "QC", longAnalysis.take 2000,
      str "Research agent analysis", 0.7⟩ : ResearchResult)
      ∈ _extract_from_content longAnalysis (str "QC") := by
    unfold _extract_from_content
    rw [if_pos (show 100 < longAnalysis.length by decide)]
    exact List.mem_singleton.mpr rfl
  exact ⟨⟨by decide, C9_result_bounds.1 parseNone (str "q") (str "payload") (by decide)⟩,
    ⟨rfl, C9_result_bounds.2.1 parseMalformed (str "q") (str "[5]") rfl⟩,
    ⟨trivial, C9_result_bounds.2.2.1 parseNone (str "q") (str "payload") trivial⟩,
    hmem, (C9_result_bounds.2.2.2.1 longAnalysis (str "QC") _ hmem).1,
    (C9_result_bounds.2.2.2.1 longAnalysis (str "QC") _ hmem).2⟩

set_option maxRecDepth 10000 in
/-- Claim C8, counterexample: a transcript containing a message that both
carries a located `tavily_search` tool call and whose content mentions the
search capability with more than 100 characters yields the analysis result in
addition to the tool-call result, even though tool calls are found. -/
theorem C8_counterexample :
    demoToolMsg.tool_calls ≠ []
      ∧ (_extract_research_results_from_response parseNone [demoToolMsg, demoResultMsg]
          (str "QC")).map (fun r => r.source)
        = [str "Web search result", str "Research agent analysis"] := by
  constructor
  · decide
  · rfl

/-- Claim C8, amended: a `Result` tagged `source = "Research agent analysis"`
with score `0.7` is synthesized from a message's text whenever that text
mentions the search capability and is longer than 100 characters, regardless
of whether tool calls are found in the transcript; in particular it can be
produced in addition to Results extracted from located tool calls. -/
theorem C8_analysis_result (parse : Str → ParsedPayload) (msgs : List TMsg)
    (topic : Str) (m : TMsg) (hm : m ∈ msgs)
    (h1 : isSubstr (str "tavily_search") m.content = true)
    (h2 : 100 < m.content.length) :
    (⟨str "Research on " ++ topic, m.content.take 2000,
        str "Research agent analysis", 0.7⟩ : ResearchResult)
      ∈ _extract_research_results_from_response parse msgs topic := by
  unfold _extract_research_results_from_response
  rw [List.mem_flatMap]
  refine ⟨m, hm, List.mem_append_right _ ?_⟩
  unfold contentResults
  rw [if_pos h1]
  unfold _extract_from_content
  rw [if_pos h2]
  exact List.mem_singleton.mpr rfl

set_option maxRecDepth 10000 in
/-- Witness for `C8_analysis_result` on a one-message transcript whose message
also carries a tool call. -/
theorem C8_analysis_result_witness :
    demoToolMsg ∈ [demoToolMsg, demoResultMsg]
      ∧ (⟨str "Research on " ++ str "QC", demoToolMsg.content.take 2000,
            str "Research agent analysis", 0.7⟩ : ResearchResult)
        ∈ _extract_research_results_from_response parseNone [demoToolMsg, demoResultMsg]
            (str "QC") :=
  ⟨List.mem_cons_self _ _,
   C8_analysis_result parseNone [demoToolMsg, demoResultMsg] (str "QC") demoToolMsg
     (List.mem_cons_self _ _) (by decide) (by decide)⟩

/-- Claim C5, counterexample: when generation fails on a state whose last
message is an assistant message, the fallback plan is built from that
assistant message's content (`"B"`), not from the content of the last user
message (`"A"`). -/
theorem C5_counterexample :
    lastUserContent demoPlannerState = some (str "A")
      ∧ (call_planner_agent (PlannerOutcome.genFail (str "model unavailable"))
            demoPlannerState).research_plan
        = some ⟨str "B", [str "General research on: B"],
            [str "What information is available about: B?"]⟩
      ∧ str "B" ≠ str "A" := by decide

/-- Claim C5, amended: the Plan stage never propagates an exception and always
sets the current agent to researcher. On an exception during extraction (with
at least one user message present) the single-item fallback plan is built from
the content of the last user message; on an exception during generation (or
with no user message) the fallback plan is instead built from the content of
the last message of the state regardless of its role, or from the literal
`"Unknown query"` when the state has no messages. -/
theorem C5_fallback_plans (s : RState) :
    (∀ content q, lastUserContent s = some q →
      (call_planner_agent (PlannerOutcome.extractFail content) s).research_plan
          = some ⟨q, [str "Research aspect of: " ++ q],
              [str "What information is available about: " ++ q ++ str "?"]⟩
        ∧ (call_planner_agent (PlannerOutcome.extractFail content) s).current_agent
          = some "researcher")
    ∧ (∀ err,
      (call_planner_agent (PlannerOutcome.genFail err) s).research_plan
          = some ⟨lastMsgContentOrUnknown s,
              [str "General research on: " ++ lastMsgContentOrUnknown s],
              [str "What information is available about: "
                ++ lastMsgContentOrUnknown s ++ str "?"]⟩
        ∧ (call_planner_agent (PlannerOutcome.genFail err) s).current_agent
          = some "researcher") := by
  constructor
  · intro content q hq
    unfold lastUserContent at hq
    unfold call_planner_agent
    cases hl : (s.messages.filter (fun m => m.role = Role.user)).getLast? with
    | none => rw [hl] at hq; simp at hq
    | some lastUser =>
      rw [hl] at hq
      simp only [Option.map] at hq
      cases hq
      exact ⟨rfl, rfl⟩
  · intro err
    unfold call_planner_agent
    cases hl : (s.messages.filter (fun m => m.role = Role.user)).getLast? with
    | none => exact ⟨rfl, rfl⟩
    | some lastUser => exact ⟨rfl, rfl⟩

/-- Witness for `C5_fallback_plans`: the extraction-failure conjunct applied
to a state whose last user message says `"A"`. -/
theorem C5_fallback_plans_witness :
    lastUserContent demoPlannerState = some (str "A")
      ∧ (call_planner_agent (PlannerOutcome.extractFail (str "Plan: stuff"))
            demoPlannerState).research_plan
        = some ⟨str "A", [str "Research aspect of: A"],
            [str "What information is available about: A?"]⟩ := by
  have h : lastUserContent demoPlannerState = some (str "A") := by decide
  exact ⟨h, ((C5_fallback_plans demoPlannerState).1 (str "Plan: stuff") (str "A") h).1⟩

set_option maxRecDepth 10000 in
/-- Claim C7, counterexample: with one result whose source is the literal
`"Unknown source"` and a report with no sources section, the Write stage still
appends a Sources section (its header is present in the output), although no
result has a source other than `"Unknown source"`. -/
theorem C7_counterexample :
    (∀ r ∈ unknownOnlyResults, r.source = str "Unknown source")
      ∧ isSubstr (str "sources:") (lowerStr (str "Report body")) = false
      ∧ isSubstr (str "## Sources")
          (_enhance_report_formatting (str "Report body") (some demoPlan)
            unknownOnlyResults 1 (str "2026-01-01")) = true := by decide

/-- Claim C7, amended: the Write stage appends a Sources section if and only
if the result list is non-empty and the generated report does not already
contain `"sources:"` (case-insensitive substring check) — the existence of a
source other than the literal `"Unknown source"` is not required (such sources
only affect the section's entries). With zero results nothing is appended and
the metadata header contains `"Sources Consulted:** 0 research sources"`. -/
theorem C7_sources_section (report : Str) (plan : Option ResearchPlan)
    (results : List ResearchResult) (iters : Nat) (date : Str) :
    (_enhance_report_formatting report plan results iters date
        ≠ mkMetadata plan results.length iters date ++ report
      ↔ (results ≠ [] ∧ isSubstr (str "sources:") (lowerStr report) = false))
    ∧ (results = [] →
        _enhance_report_formatting report plan results iters date
          = mkMetadata plan 0 iters date ++ report
        ∧ ∃ pre post, _enhance_report_formatting report plan results iters date
            = pre ++ str "Sources Consulted:** 0 research sources" ++ post) := by
  constructor
  · by_cases hc : results ≠ [] ∧ isSubstr (str "sources:") (lowerStr report) = false
    · rw [iff_true_right hc]
      have he : _enhance_report_formatting report plan results iters date
          = mkMetadata plan results.length iters date
            ++ (report ++ str "\n\n## Sources\n\n" ++ sourcesEntries results 1 []) := by
        unfold _enhance_report_formatting
        rw [if_pos hc]
      rw [he]
      intro heq
      have hlen := congrArg List.length heq
      have h14 : (str "\n\n## Sources\n\n").length = 14 := rfl
      simp only [List.length_append] at hlen
      omega
    · rw [iff_false_right hc]
      unfold _enhance_report_formatting
      rw [if_neg hc]
      simp
  · intro hre
    subst hre
    have hnc : ¬ (([] : List ResearchResult) ≠ []
        ∧ isSubstr (str "sources:") (lowerStr report) = false) := by simp
    have heq : _enhance_report_formatting report plan [] iters date
        = mkMetadata plan 0 iters date ++ report := by
      unfold _enhance_report_formatting
      rw [if_neg hnc]
      rfl
    refine ⟨heq, ?_⟩
    rw [heq]
    unfold mkMetadata
    cases plan with
    | none =>
      refine ⟨str "# Research Report\n\n**Topic:** " ++ str "Unknown Topic"
        ++ str "\n**Research Date:** " ++ date ++ str "\n**", ?_, ?_⟩
      · exact str "\n**Research Iterations:** " ++ natStr iters
          ++ str "\n\n---\n\n" ++ report
      · simp only [List.append_assoc]
        rfl
    | some p =>
      refine ⟨str "# Research Report\n\n**Topic:** " ++ p.main_topic
        ++ str "\n**Research Date:** " ++ date ++ str "\n**", ?_, ?_⟩
      · exact str "\n**Research Iterations:** " ++ natStr iters
          ++ str "\n\n---\n\n" ++ report
      · simp only [List.append_assoc]
        rfl

/-- Witness for `C7_sources_section`: with zero results the enhanced report is
exactly the metadata header followed by the report. -/
theorem C7_sources_section_witness :
    _enhance_report_formatting (str "Body") (some demoPlan) [] 1 (str "2026-01-02")
      = mkMetadata (some demoPlan) 0 1 (str "2026-01-02") ++ str "Body" :=
  ((C7_sources_section (str "Body") (some demoPlan) [] 1 (str "2026-01-02")).2 rfl).1

/-- Router evaluation on the state produced by a successful (non-skip)
researcher step: the router agrees with the in-stage Continuation Policy
evaluated on the pre-increment iteration count and the accumulated results. -/
theorem router_vs_policy (msgs : List Msg) (plan : ResearchPlan)
    (allResults : List ResearchResult) (k m : Nat) (fr : Option Str) :
    (_should_continue_research_decision
      { messages := msgs, research_plan := some plan,
        research_results := allResults, research_iterations := k + 1,
        max_research_iterations := m, final_report := fr,
        current_agent := if _should_continue_research k m plan.subtopics.length allResults.length
          then "researcher" else "writer" }
      = "continue")
    ↔ _should_continue_research k m plan.subtopics.length allResults.length = true := by
  unfold _should_continue_research_decision
  dsimp only
  by_cases h1 : m ≤ k + 1
  · rw [if_pos h1]
    unfold _should_continue_research
    rw [if_pos h1]
    simp
  · rw [if_neg h1]
    by_cases h2 : allResults.length < plan.subtopics.length * 2
    · rw [if_pos h2]
      unfold _should_continue_research
      rw [if_neg h1, if_pos h2]
      simp
    · rw [if_neg h2]
      by_cases h3 : allResults.length / (k + 1) * (k + 1) < plan.subtopics.length
      · have hpol : _should_continue_research k m plan.subtopics.length allResults.length
            = true := by
          unfold _should_continue_research
          rw [if_neg h1, if_neg h2, if_pos h3]
        rw [hpol, if_pos rfl, if_neg (by decide : ¬ ("researcher" : String) = "writer")]
        simp
      · have hpol : _should_continue_research k m plan.subtopics.length allResults.length
            = false := by
          unfold _should_continue_research
          rw [if_neg h1, if_neg h2, if_neg h3]
        rw [hpol, if_neg (by decide : ¬ (false = true)), if_pos rfl]
        simp

/-- Claim C2: for every state carrying a plan and every agent transcript, the
external router evaluated on the merged state after a researcher step says
continue exactly when the Continuation Policy evaluated inside the stage (on
the pre-increment iteration count and the accumulated result count) says
continue; with an absent plan both sides advance (the stage through its
exception path, the router through its no-plan rule). -/
theorem C2_router_agrees (parse : Str → ParsedPayload) (s : RState) :
    (∀ plan transcript, s.research_plan = some plan →
      (_should_continue_research_decision
          (applyDelta s (call_research_agent parse (ResearchOutcome.success transcript) s))
          = "continue"
        ↔ _should_continue_research s.research_iterations s.max_research_iterations
            plan.subtopics.length
            (s.research_results
              ++ _extract_research_results_from_response parse transcript plan.main_topic).length
            = true))
    ∧ (∀ o, s.research_plan = none →
        _should_continue_research_decision
          (applyDelta s (call_research_agent parse o s)) = "write") := by
  constructor
  · intro plan transcript hp
    unfold call_research_agent
    rw [hp]
    dsimp only
    by_cases hb : s.max_research_iterations ≤ s.research_iterations
    · -- skip path: counter unchanged, still at or over budget, both sides advance
      rw [if_pos hb]
      unfold applyDelta
      dsimp only
      unfold _should_continue_research_decision
      dsimp only
      simp only [Option.getD_some, Option.getD_none]
      rw [if_pos hb]
      unfold _should_continue_research
      rw [if_pos (show s.max_research_iterations ≤ s.research_iterations + 1 by omega)]
      simp
    · -- genuine research step: reduce to `router_vs_policy`
      rw [if_neg hb]
      unfold applyDelta
      dsimp only
      simp only [Option.getD_some, Option.getD_none]
      rw [hp]
      exact router_vs_policy _ plan _ s.research_iterations s.max_research_iterations _
  · intro o hp
    unfold call_research_agent
    rw [hp]
    unfold researcherErrorDelta applyDelta
    dsimp only
    unfold _should_continue_research_decision
    dsimp only
    simp only [Option.getD_some, Option.getD_none]
    by_cases h1 : s.max_research_iterations ≤ s.research_iterations + 1
    · rw [if_pos h1]
    · rw [if_neg h1, hp]

/-- Witness for `C2_router_agrees` on a concrete state with a plan and an
empty transcript. -/
theorem C2_router_agrees_witness :
    c2State.research_plan = some demoPlan
      ∧ (_should_continue_research_decision
          (applyDelta c2State
            (call_research_agent parseNone (ResearchOutcome.success []) c2State))
          = "continue"
        ↔ _should_continue_research c2State.research_iterations
            c2State.max_research_iterations demoPlan.subtopics.length
            (c2State.research_results
              ++ _extract_research_results_from_response parseNone [] demoPlan.main_topic).length
            = true) :=
  ⟨rfl, (C2_router_agrees parseNone c2State).1 demoPlan [] rfl⟩

/-- Execution at `stop` (LangGraph's `END`) returns immediately. -/
theorem exec_stop (g : GraphDef) (o : Oracles) (f : Nat) (s : RState) (rc : Nat) :
    execNodes g o f GNode.stop s rc = ([], s) := by
  cases f <;> rfl

/-- The router returns one of its two labels. -/
theorem router_total (s : RState) :
    _should_continue_research_decision s = "continue"
      ∨ _should_continue_research_decision s = "write" := by
  unfold _should_continue_research_decision
  by_cases h1 : s.max_research_iterations ≤ s.research_iterations
  · rw [if_pos h1]; right; rfl
  · rw [if_neg h1]
    cases s.research_plan with
    | none => right; rfl
    | some plan =>
      dsimp only
      by_cases h2 : s.research_results.length < plan.subtopics.length * 2
      · rw [if_pos h2]; left; rfl
      · rw [if_neg h2]
        by_cases h3 : s.current_agent = "writer"
        · rw [if_pos h3]; right; rfl
        · rw [if_neg h3]; left; rfl

/-- A router decision of continue implies the merged state is under budget. -/
theorem router_continue_budget (s : RState)
    (h : _should_continue_research_decision s = "continue") :
    s.research_iterations < s.max_research_iterations := by
  by_contra hc
  unfold _should_continue_research_decision at h
  rw [if_pos (by omega)] at h
  exact absurd h (by decide)

/-- A researcher step preserves the budget and either increments the iteration
counter or (only when already at or over budget) leaves it unchanged. -/
theorem step_iterations (parse : Str → ParsedPayload) (o : ResearchOutcome) (s : RState) :
    (applyDelta s (call_research_agent parse o s)).max_research_iterations
        = s.max_research_iterations
      ∧ ((applyDelta s (call_research_agent parse o s)).research_iterations
          = s.research_iterations + 1
        ∨ ((applyDelta s (call_research_agent parse o s)).research_iterations
            = s.research_iterations
          ∧ s.max_research_iterations ≤ s.research_iterations)) := by
  refine ⟨rfl, ?_⟩
  cases hp : s.research_plan with
  | none =>
    cases o <;> left <;>
      simp [call_research_agent, researcherErrorDelta, applyDelta, hp]
  | some plan =>
    by_cases hb : s.max_research_iterations ≤ s.research_iterations
    · right
      refine ⟨?_, hb⟩
      simp [call_research_agent, applyDelta, hp, hb]
    · cases o <;> left <;>
        simp [call_research_agent, researcherErrorDelta, applyDelta, hp, hb]

/-- A planner step preserves the iteration counter and the budget. -/
theorem planner_preserves (o : PlannerOutcome) (s : RState) :
    (applyDelta s (call_planner_agent o s)).research_iterations = s.research_iterations
      ∧ (applyDelta s (call_planner_agent o s)).max_research_iterations
        = s.max_research_iterations := by
  refine ⟨?_, rfl⟩
  cases hl : (s.messages.filter (fun m => m.role = Role.user)).getLast? with
  | none => simp [call_planner_agent, plannerOuterFallback, applyDelta, hl]
  | some m =>
    cases o <;> simp [call_planner_agent, plannerOuterFallback, applyDelta, hl]

/-- A writer step always completes the workflow with a report. -/
theorem writer_completes (o : WriterOutcome) (date : Str) (s : RState) :
    (applyDelta s (call_writer_agent o date s)).current_agent = "completed"
      ∧ (applyDelta s (call_writer_agent o date s)).final_report.isSome = true := by
  cases hu : (s.messages.filter (fun m => m.role = Role.user)).head? with
  | none => simp [call_writer_agent, writerFallbackDelta, applyDelta, hu]
  | some m =>
    cases hp : s.research_plan with
    | none => simp [call_writer_agent, writerFallbackDelta, applyDelta, hu, hp]
    | some p =>
      cases o <;> simp [call_writer_agent, writerFallbackDelta, applyDelta, hu, hp]

/-- Successor of `start` in the with-loops graph. -/
theorem nextLoops_start (s : RState) :
    nextNode researchGraphWithLoops GNode.start s = some GNode.planner := by
  simp [nextNode, researchGraphWithLoops, List.find?]

/-- Successor of the planner in the with-loops graph. -/
theorem nextLoops_planner (s : RState) :
    nextNode researchGraphWithLoops GNode.planner s = some GNode.researcher := by
  simp [nextNode, researchGraphWithLoops, List.find?]

/-- Successor of the writer in the with-loops graph. -/
theorem nextLoops_writer (s : RState) :
    nextNode researchGraphWithLoops GNode.writer s = some GNode.stop := by
  simp [nextNode, researchGraphWithLoops, List.find?]

/-- The conditional edge routes back to the researcher on continue. -/
theorem nextLoops_researcher_continue (s : RState)
    (h : _should_continue_research_decision s = "continue") :
    nextNode researchGraphWithLoops GNode.researcher s = some GNode.researcher := by
  simp [nextNode, researchGraphWithLoops, List.find?, h]

/-- The conditional edge routes to the writer on write. -/
theorem nextLoops_researcher_write (s : RState)
    (h : _should_continue_research_decision s = "write") :
    nextNode researchGraphWithLoops GNode.researcher s = some GNode.writer := by
  simp [nextNode, researchGraphWithLoops, List.find?, h]

/-- Bounded-loop lemma: started at the researcher with enough fuel, the
with-loops graph executes the researcher between one and
`max 1 (budget - counter)` times, then the writer once, and ends completed
with a report. -/
theorem loop_run (o : Oracles) (f : Nat) :
    ∀ (s : RState) (rc : Nat),
    s.max_research_iterations - s.research_iterations + 2 ≤ f →
    ∃ n sf, execNodes researchGraphWithLoops o f GNode.researcher s rc
        = (List.replicate n GNode.researcher ++ [GNode.writer], sf)
      ∧ 1 ≤ n
      ∧ n ≤ max 1 (s.max_research_iterations - s.research_iterations)
      ∧ sf.current_agent = "completed" ∧ sf.final_report.isSome = true := by
  induction f with
  | zero => intro s rc h; exact absurd h (by omega)
  | succ f ih =>
    intro s rc h
    simp only [execNodes]
    dsimp only [nodeStep]
    rcases router_total (applyDelta s (call_research_agent o.parse (o.researcherO rc) s))
      with hr | hr
    · -- router says continue: the step incremented the counter under budget
      rw [nextLoops_researcher_continue _ hr]
      dsimp only
      have hi := step_iterations o.parse (o.researcherO rc) s
      have hlt := router_continue_budget _ hr
      have hmax : (applyDelta s (call_research_agent o.parse (o.researcherO rc) s)).max_research_iterations
          = s.max_research_iterations := hi.1
      have hk : (applyDelta s (call_research_agent o.parse (o.researcherO rc) s)).research_iterations
          = s.research_iterations + 1 := by
        rcases hi.2 with h1 | ⟨h1, hb⟩
        · exact h1
        · rw [h1, hmax] at hlt; omega
      have hklt : s.research_iterations + 1 < s.max_research_iterations := by
        rw [hk, hmax] at hlt; exact hlt
      have hrec := ih (applyDelta s (call_research_agent o.parse (o.researcherO rc) s))
        (rc + 1) (by rw [hmax, hk]; omega)
      obtain ⟨n, sf, hexec, hn1, hnb, hag, hfr⟩ := hrec
      rw [hmax, hk] at hnb
      refine ⟨n + 1, sf, ?_, by omega, by omega, hag, hfr⟩
      rw [hexec]
      simp [List.replicate_succ]
    · -- router says write: one writer step then stop
      rw [nextLoops_researcher_write _ hr]
      dsimp only
      obtain ⟨f1, rfl⟩ : ∃ f1, f = f1 + 1 := ⟨f - 1, by omega⟩
      simp only [execNodes]
      dsimp only [nodeStep]
      rw [nextLoops_writer]
      dsimp only
      rw [exec_stop]
      have hw := writer_completes o.writerO o.date
        (applyDelta s (call_research_agent o.parse (o.researcherO rc) s))
      exact ⟨1, _, rfl, le_refl 1, by omega, hw.1, hw.2⟩

/-- Claim C1, counterexample: with `max_research_iterations = 0` the full run
of the with-loops graph still executes three stages (planner, researcher on
its skip path, writer), exceeding the claimed bound of
`max_research_iterations + 2 = 2` stage invocations, and the researcher runs
once, more than `max_research_iterations = 0` times. -/
theorem C1_counterexample :
    (execNodes researchGraphWithLoops demoOracles 4 GNode.start zeroBudgetState 0).1
        = [GNode.planner, GNode.researcher, GNode.writer]
      ∧ ¬ ((execNodes researchGraphWithLoops demoOracles 4 GNode.start zeroBudgetState 0).1.length
          ≤ zeroBudgetState.max_research_iterations + 2)
      ∧ ¬ ((execNodes researchGraphWithLoops demoOracles 4 GNode.start zeroBudgetState 0).1.count
            GNode.researcher
          ≤ zeroBudgetState.max_research_iterations) := by decide

/-- Claim C1, amended: for every oracle assignment and every initial state
whose iteration budget is at least one, a full run of the with-loops graph
terminates with `current_agent = "completed"` and a non-null `final_report`,
executes at most `max_research_iterations + 2` stage nodes, and executes the
researcher node at most `max_research_iterations` times. (For a budget of
zero the run still terminates completed, but in three stage invocations.) -/
theorem C1_run_bounded (o : Oracles) (s0 : RState)
    (h : 1 ≤ s0.max_research_iterations) :
    (execNodes researchGraphWithLoops o (s0.max_research_iterations + 4)
        GNode.start s0 0).2.current_agent = "completed"
      ∧ ((execNodes researchGraphWithLoops o (s0.max_research_iterations + 4)
          GNode.start s0 0).2.final_report).isSome = true
      ∧ (execNodes researchGraphWithLoops o (s0.max_research_iterations + 4)
          GNode.start s0 0).1.length ≤ s0.max_research_iterations + 2
      ∧ (execNodes researchGraphWithLoops o (s0.max_research_iterations + 4)
          GNode.start s0 0).1.count GNode.researcher ≤ s0.max_research_iterations := by
  have hstep : execNodes researchGraphWithLoops o (s0.max_research_iterations + 4)
      GNode.start s0 0
      = execNodes researchGraphWithLoops o (s0.max_research_iterations + 3)
        GNode.planner s0 0 := by
    rw [show s0.max_research_iterations + 4 = (s0.max_research_iterations + 3) + 1 from rfl]
    simp only [execNodes]
    rw [nextLoops_start]
  have hp := planner_preserves o.plannerO s0
  have hloop := loop_run o (s0.max_research_iterations + 2)
    (applyDelta s0 (call_planner_agent o.plannerO s0)) 0
    (by rw [hp.1, hp.2]; omega)
  obtain ⟨n, sf, hexec, hn1, hnb, hag, hfr⟩ := hloop
  rw [hp.2] at hnb
  have hrun : execNodes researchGraphWithLoops o (s0.max_research_iterations + 4)
      GNode.start s0 0
      = (GNode.planner :: (List.replicate n GNode.researcher ++ [GNode.writer]), sf) := by
    rw [hstep]
    obtain ⟨F, hF⟩ : ∃ F, s0.max_research_iterations + 2 = F := ⟨_, rfl⟩
    rw [hF] at hexec
    rw [show s0.max_research_iterations + 3 = (s0.max_research_iterations + 2) + 1 from rfl,
      hF]
    simp only [execNodes]
    dsimp only [nodeStep]
    rw [nextLoops_planner]
    dsimp only
    rw [hexec]
  rw [hrun]
  have hnm : n ≤ s0.max_research_iterations := by omega
  refine ⟨hag, hfr, ?_, ?_⟩
  · simp only [List.length_cons, List.length_append, List.length_replicate,
      List.length_nil]
    omega
  · simp only [List.count_cons, List.count_append, List.count_replicate,
      List.count_nil]
    simp only [show (GNode.researcher == GNode.planner) = false from rfl,
      show (GNode.researcher == GNode.writer) = false from rfl,
      show (GNode.researcher == GNode.researcher) = true from rfl]
    simp
    omega

/-- Witness for `C1_run_bounded` on the default budget of five. -/
theorem C1_run_bounded_witness :
    1 ≤ defaultState.max_research_iterations
      ∧ (execNodes researchGraphWithLoops demoOracles
          (defaultState.max_research_iterations + 4) GNode.start defaultState 0).2.current_agent
        = "completed"
      ∧ ((execNodes researchGraphWithLoops demoOracles
          (defaultState.max_research_iterations + 4) GNode.start defaultState 0).2.final_report).isSome
        = true
      ∧ (execNodes researchGraphWithLoops demoOracles
          (defaultState.max_research_iterations + 4) GNode.start defaultState 0).1.length
        ≤ defaultState.max_research_iterations + 2
      ∧ (execNodes researchGraphWithLoops demoOracles
          (defaultState.max_research_iterations + 4) GNode.start defaultState 0).1.count
          GNode.researcher
        ≤ defaultState.max_research_iterations := by
  have hc := C1_run_bounded demoOracles defaultState (by decide)
  exact ⟨by decide, hc.1, hc.2.1, hc.2.2.1, hc.2.2.2⟩

/-- One execution step of the linear graph from `start`. -/
theorem execLinear_start (o : Oracles) (F : Nat) (s : RState) (rc : Nat) :
    execNodes researchGraph o (F + 1) GNode.start s rc
      = execNodes researchGraph o F GNode.planner s rc := by
  simp only [execNodes]
  rw [show nextNode researchGraph GNode.start s = some GNode.planner from rfl]

/-- One execution step of the linear graph from the planner. -/
theorem execLinear_planner (o : Oracles) (F : Nat) (s : RState) (rc : Nat) :
    execNodes researchGraph o (F + 1) GNode.planner s rc
      = (GNode.planner
          :: (execNodes researchGraph o F GNode.researcher
              (applyDelta s (call_planner_agent o.plannerO s)) rc).1,
        (execNodes researchGraph o F GNode.researcher
            (applyDelta s (call_planner_agent o.plannerO s)) rc).2) := by
  simp only [execNodes]
  dsimp only [nodeStep]
  rw [show nextNode researchGraph GNode.planner
    (applyDelta s (call_planner_agent o.plannerO s)) = some GNode.researcher from rfl]

/-- One execution step of the linear graph from the researcher: its successor
is always the writer, with no conditional routing. -/
theorem execLinear_researcher (o : Oracles) (F : Nat) (s : RState) (rc : Nat) :
    execNodes researchGraph o (F + 1) GNode.researcher s rc
      = (GNode.researcher
          :: (execNodes researchGraph o F GNode.writer
              (applyDelta s (call_research_agent o.parse (o.researcherO rc) s)) (rc + 1)).1,
        (execNodes researchGraph o F GNode.writer
            (applyDelta s (call_research_agent o.parse (o.researcherO rc) s)) (rc + 1)).2) := by
  simp only [execNodes]
  dsimp only [nodeStep]
  rw [show nextNode researchGraph GNode.researcher
    (applyDelta s (call_research_agent o.parse (o.researcherO rc) s))
    = some GNode.writer from rfl]

/-- One execution step of the linear graph from the writer, which then stops. -/
theorem execLinear_writer (o : Oracles) (F : Nat) (s : RState) (rc : Nat) :
    execNodes researchGraph o (F + 1) GNode.writer s rc
      = ([GNode.writer], applyDelta s (call_writer_agent o.writerO o.date s)) := by
  simp only [execNodes]
  dsimp only [nodeStep]
  rw [show nextNode researchGraph GNode.writer
    (applyDelta s (call_writer_agent o.writerO o.date s)) = some GNode.stop from rfl]
  dsimp only
  rw [exec_stop]

/-- Claim C10: in the graph built by the default constructor every run with
enough fuel executes exactly the linear chain planner, researcher, writer —
the researcher exactly once — the graph has no conditional edges and no
researcher-to-researcher edge; the conditional back-edge to the researcher
exists only in the with-loops constructor. -/
theorem C10_linear_graph (o : Oracles) (s0 : RState) (fuel : Nat) (h : 5 ≤ fuel) :
    (execNodes researchGraph o fuel GNode.start s0 0).1
        = [GNode.planner, GNode.researcher, GNode.writer]
      ∧ (execNodes researchGraph o fuel GNode.start s0 0).1.count GNode.researcher = 1
      ∧ researchGraph.conditionals = []
      ∧ (GNode.researcher, GNode.researcher) ∉ researchGraph.edges
      ∧ ∃ ce ∈ researchGraphWithLoops.conditionals,
          ce.source = GNode.researcher ∧ ("continue", GNode.researcher) ∈ ce.targets := by
  have ht : (execNodes researchGraph o fuel GNode.start s0 0).1
      = [GNode.planner, GNode.researcher, GNode.writer] := by
    obtain ⟨k, rfl⟩ : ∃ k, fuel = k + 5 := ⟨fuel - 5, by omega⟩
    rw [show k + 5 = (k + 4) + 1 from rfl, execLinear_start,
      show k + 4 = (k + 3) + 1 from rfl, execLinear_planner]
    dsimp only
    rw [show k + 3 = (k + 2) + 1 from rfl, execLinear_researcher]
    dsimp only
    rw [show k + 2 = (k + 1) + 1 from rfl, execLinear_writer]
  refine ⟨ht, by rw [ht]; rfl, rfl, by decide, ?_⟩
  refine ⟨⟨GNode.researcher, _should_continue_research_decision,
    [("continue", GNode.researcher), ("write", GNode.writer)]⟩, ?_, rfl, ?_⟩
  · simp [researchGraphWithLoops]
  · simp

/-- Witness for `C10_linear_graph` at fuel five. -/
theorem C10_linear_graph_witness :
    (execNodes researchGraph demoOracles 5 GNode.start defaultState 0).1
      = [GNode.planner, GNode.researcher, GNode.writer] :=
  (C10_linear_graph demoOracles defaultState 5 (by decide)).1
